import Mathlib

/-!
Verification of the ksp-commnet-calculator CLI (src/main.rs) and of the
engine behaviour its spec describes.

The CLI glue in src/main.rs is embedded directly: raw tokens are lists of
characters, `str::split(':')` becomes `splitOnColon`, `usize::from_str`
becomes `parseUsize`, `split_antenna_arg` keeps its name, and the
endpoint-building loop of `print_dists` becomes `addLoop`/`buildEndpoint`,
parameterised over the catalog-lookup function (the core crate's
`Antennas::get`).

The engine itself (crate `ksp_commnet_calculator_core`) is not among the
repository files available here, so `combined_power` and `max_distance`
are modelled from the spec, over the reals.
-/

namespace KspCommnet

/-- Rust `str::split(':')`, modelled on lists of characters: the pieces
between the colons, in order. A token with no colon yields one piece, the
whole token; an empty token yields one empty piece. -/
def splitOnColon : List Char → List (List Char)
  | [] => [[]]
  | c :: rest =>
    if c = ':' then [] :: splitOnColon rest
    else
      match splitOnColon rest with
      | [] => [[c]]
      | p :: ps => (c :: p) :: ps

/-- The numeric value of a run of ASCII digits, most significant first. -/
def digitsVal (cs : List Char) : Nat :=
  cs.foldl (fun acc c => 10 * acc + (c.toNat - 48)) 0

/-- The largest value of Rust's 64-bit `usize`. -/
def USIZE_MAX : Nat := 18446744073709551615

/-- Rust `str::parse::<usize>()`: an optional leading plus sign, then one or
more ASCII digits; an empty digit run, any non-digit character, or overflow
past `USIZE_MAX` is a parse error (`none`). -/
def parseUsize (cs : List Char) : Option Nat :=
  let digits :=
    match cs with
    | '+' :: rest => rest
    | _ => cs
  if digits = [] then none
  else if digits.all (fun c => c.isDigit) then
    if digitsVal digits ≤ USIZE_MAX then some (digitsVal digits) else none
  else none

/-- The message of the invalid-specifier error built in `split_antenna_arg`
(src/main.rs lines 142-145): the fixed text followed by the offending
token. -/
def invalidSpecMsg (s : List Char) : List Char :=
  "antenna specifier should be [<NUMBER_OF_ANTENNA>:]<ANTENNA_NAME>, but ".toList ++ s

/-- The errors `split_antenna_arg` can return (both are `anyhow` errors in
the source): the invalid-specifier message, or a count that failed to parse
as `usize` (the `?` on `parts[1].parse()`). -/
inductive SpecError where
  | invalidSpecifier (msg : List Char)
  | parseIntError (tok : List Char)
deriving DecidableEq, Repr

/-- Embedding of `split_antenna_arg` (src/main.rs lines 133-147): the token
is split on colons; one part means count 1 with the whole token as the
name; with two parts the SECOND part (`parts[1]`) is parsed as the count
and the FIRST (`parts[0]`) is the name; any other number of parts is the
invalid-specifier error carrying the token. -/
def split_antenna_arg (s : List Char) : Except SpecError (Nat × List Char) :=
  match splitOnColon s with
  | [p] => Except.ok (1, p)
  | [a, b] =>
    match parseUsize b with
    | some n => Except.ok (n, a)
    | none => Except.error (SpecError.parseIntError b)
  | _ => Except.error (SpecError.invalidSpecifier (invalidSpecMsg s))

/-- The endpoint-building loop of `print_dists` (src/main.rs lines 76-81 and
90-95), parameterised over the catalog lookup `get`: each raw token is split
by `split_antenna_arg`; a split error aborts the whole run (the `?`
operator); a name the catalog resolves is appended with its count; a name
it does not resolve is skipped and the loop continues. -/
def addLoop {α : Type} (get : List Char → Option α) :
    List (List Char) → List (α × Nat) → Except SpecError (List (α × Nat))
  | [], acc => Except.ok acc
  | s :: rest, acc =>
    match split_antenna_arg s with
    | Except.error e => Except.error e
    | Except.ok (count, name) =>
      match get name with
      | some a => addLoop get rest (acc ++ [(a, count)])
      | none => addLoop get rest acc

/-- How building one endpoint can fail: a specifier error propagated by `?`,
or the `expect` panic when the default key itself does not resolve
(src/main.rs lines 83-85 and 97-99). -/
inductive BuildError where
  | spec (e : SpecError)
  | defaultMissing
deriving DecidableEq, Repr

/-- The per-endpoint logic of `print_dists` (src/main.rs lines 75-87 for
"from", 89-101 for "to"): run the loop over the raw tokens starting from the
empty endpoint; if the endpoint is still empty afterwards, resolve the
default key and add it with count 1, panicking (`BuildError.defaultMissing`)
when even the default does not resolve. -/
def buildEndpoint {α : Type} (get : List Char → Option α)
    (specs : List (List Char)) (defaultKey : List Char) :
    Except BuildError (List (α × Nat)) :=
  match addLoop get specs [] with
  | Except.error e => Except.error (BuildError.spec e)
  | Except.ok l =>
    if l.isEmpty then
      match get defaultKey with
      | some a => Except.ok [(a, 1)]
      | none => Except.error BuildError.defaultMissing
    else Except.ok l

/-- `DEFAULT_FROM` of src/main.rs line 11. -/
def DEFAULT_FROM : List Char := "DSN Lv.3".toList

/-- `DEFAULT_TO` of src/main.rs line 12. -/
def DEFAULT_TO : List Char := "Command Module".toList

/-- A device definition as far as the CLI's endpoint building needs it: the
catalog lookup returns such a record. -/
structure Antenna where
  name : List Char
deriving DecidableEq, Repr

/-- A one-antenna test catalog: resolves the key "Known" and nothing else. -/
def knownAntenna : Antenna := ⟨"Known".toList⟩

/-- Lookup function of the one-antenna test catalog. -/
def smallCatalog : List Char → Option Antenna := fun k =>
  if k = "Known".toList then some knownAntenna else none

/-- A test catalog resolving exactly the two default keys. -/
def defaultsCatalog : List Char → Option Antenna := fun k =>
  if k = DEFAULT_FROM then some ⟨DEFAULT_FROM⟩
  else if k = DEFAULT_TO then some ⟨DEFAULT_TO⟩
  else none

/-- Equality of `Except` results is decidable when both components' is;
used to settle concrete runs by `decide`. -/
instance {ε α : Type} [DecidableEq ε] [DecidableEq α] : DecidableEq (Except ε α) :=
  fun x y =>
    match x, y with
    | Except.ok a, Except.ok b =>
      if h : a = b then Decidable.isTrue (by rw [h])
      else Decidable.isFalse (by intro hc; cases hc; exact h rfl)
    | Except.error a, Except.error b =>
      if h : a = b then Decidable.isTrue (by rw [h])
      else Decidable.isFalse (by intro hc; cases hc; exact h rfl)
    | Except.ok _, Except.error _ => Decidable.isFalse (by intro hc; cases hc)
    | Except.error _, Except.ok _ => Decidable.isFalse (by intro hc; cases hc)

/-- Splitting a colon-free token yields exactly one piece, the token. -/
theorem splitOnColon_no_colon (s : List Char) (h : ':' ∉ s) : splitOnColon s = [s] := by
  induction s with
  | nil => rfl
  | cons c rest ih =>
    have hc : c ≠ ':' := fun hc => h (hc ▸ List.mem_cons_self c rest)
    have hr : ':' ∉ rest := fun hm => h (List.mem_cons_of_mem c hm)
    simp [splitOnColon, hc, ih hr]

/-- C10: a raw specifier token containing no colon always parses
successfully, as count 1 with the whole token as the device name
(src/main.rs line 137). -/
theorem split_antenna_arg_no_colon (s : List Char) (h : ':' ∉ s) :
    split_antenna_arg s = Except.ok (1, s) := by
  unfold split_antenna_arg
  rw [splitOnColon_no_colon s h]

/-- C10 witness: the bare token "Communotron 16" parses as one device of
count 1. -/
theorem split_antenna_arg_no_colon_witness :
    ':' ∉ "Communotron 16".toList ∧
      split_antenna_arg "Communotron 16".toList =
        Except.ok (1, "Communotron 16".toList) :=
  ⟨by decide, split_antenna_arg_no_colon ("Communotron 16".toList) (by decide)⟩

/-- C5: a raw token that splits into three or more colon-separated parts is
rejected with the invalid-specifier error, whose message carries the
offending token itself (it is the fixed text followed by the token); no
(count, name) pair is produced. -/
theorem split_antenna_arg_many_parts (s : List Char)
    (h : 3 ≤ (splitOnColon s).length) :
    split_antenna_arg s = Except.error (SpecError.invalidSpecifier (invalidSpecMsg s)) ∧
      ∃ p, invalidSpecMsg s = p ++ s := by
  refine ⟨?_, ⟨_, rfl⟩⟩
  unfold split_antenna_arg
  cases hl : splitOnColon s with
  | nil => rfl
  | cons a t =>
    cases t with
    | nil => rw [hl] at h; simp at h
    | cons b t2 =>
      cases t2 with
      | nil => rw [hl] at h; simp at h
      | cons c rest => rfl

/-- C5 witness: the token "a:b:c" splits into three parts and is rejected
with the invalid-specifier error carrying the token. -/
theorem split_antenna_arg_many_parts_witness :
    3 ≤ (splitOnColon "a:b:c".toList).length ∧
      (split_antenna_arg "a:b:c".toList =
          Except.error (SpecError.invalidSpecifier (invalidSpecMsg "a:b:c".toList)) ∧
        ∃ p, invalidSpecMsg "a:b:c".toList = p ++ "a:b:c".toList) :=
  ⟨by decide, split_antenna_arg_many_parts ("a:b:c".toList) (by decide)⟩

/-- C3: evaluating the splitter on two-part tokens shows the count is taken
from the part AFTER the colon (`parts[1]`) and the name from the part
BEFORE it (`parts[0]`): "5:3" yields count 3 with name "5", and the token
"2:Communotron 16" — well-formed under the program's own usage message
`[<NUMBER_OF_ANTENNA>:]<ANTENNA_NAME>` — fails because the device name is
fed to the integer parser. -/
theorem split_antenna_arg_count_after_colon :
    split_antenna_arg "5:3".toList = Except.ok (3, "5".toList) ∧
      split_antenna_arg "2:Communotron 16".toList =
        Except.error (SpecError.parseIntError ("Communotron 16".toList)) := by
  constructor <;> decide

/-- C1 counterexample: with a catalog resolving "Known" but not "Nope",
building an endpoint from the tokens ["Nope", "Known"] succeeds with no
error of any kind: the unknown key "Nope" is silently dropped while the
remaining specifier is processed (src/main.rs lines 78-80 have no branch
for a failed lookup). -/
theorem unknown_key_not_reported :
    buildEndpoint smallCatalog ["Nope".toList, "Known".toList] DEFAULT_FROM =
      Except.ok [(knownAntenna, 1)] := by decide

/-- C1 amended: a specifier whose device key does not resolve in the catalog
is silently skipped — building the endpoint from it followed by further
tokens gives exactly the result of building from the further tokens alone,
and no error is reported for the unknown key. -/
theorem unknown_key_skipped {α : Type} (get : List Char → Option α)
    (s : List Char) (rest : List (List Char)) (defaultKey : List Char)
    (count : Nat) (name : List Char)
    (hsplit : split_antenna_arg s = Except.ok (count, name))
    (hget : get name = none) :
    buildEndpoint get (s :: rest) defaultKey = buildEndpoint get rest defaultKey := by
  unfold buildEndpoint
  have hstep : addLoop get (s :: rest) [] = addLoop get rest [] := by
    simp only [addLoop, hsplit, hget]
  rw [hstep]

/-- C1 amended witness: skipping the unknown key "Nope" at the head of the
token list leaves the build result unchanged. -/
theorem unknown_key_skipped_witness :
    split_antenna_arg "Nope".toList = Except.ok (1, "Nope".toList) ∧
      smallCatalog "Nope".toList = none ∧
      buildEndpoint smallCatalog ["Nope".toList, "Known".toList] DEFAULT_TO =
        buildEndpoint smallCatalog ["Known".toList] DEFAULT_TO :=
  ⟨by decide, by decide,
    unknown_key_skipped smallCatalog ("Nope".toList) ["Known".toList] DEFAULT_TO
      1 ("Nope".toList) (by decide) (by decide)⟩

/-- C2: when the specifier sequence is empty and the catalog resolves the
configured default keys, the "from" endpoint is built as exactly the single
pair (resolved "DSN Lv.3", count 1), and the "to" endpoint as exactly the
single pair (resolved "Command Module", count 1). -/
theorem empty_specs_use_default {α : Type} (get : List Char → Option α)
    (aFrom aTo : α)
    (hFrom : get DEFAULT_FROM = some aFrom)
    (hTo : get DEFAULT_TO = some aTo) :
    buildEndpoint get [] DEFAULT_FROM = Except.ok [(aFrom, 1)] ∧
      buildEndpoint get [] DEFAULT_TO = Except.ok [(aTo, 1)] := by
  constructor <;> simp [buildEndpoint, addLoop, hFrom, hTo]

/-- C2 witness: against a catalog holding exactly the two defaults, empty
"from" and "to" specifier sequences each build the single default pair. -/
theorem empty_specs_use_default_witness :
    buildEndpoint defaultsCatalog [] DEFAULT_FROM =
        Except.ok [((⟨DEFAULT_FROM⟩ : Antenna), 1)] ∧
      buildEndpoint defaultsCatalog [] DEFAULT_TO =
        Except.ok [((⟨DEFAULT_TO⟩ : Antenna), 1)] :=
  empty_specs_use_default defaultsCatalog ⟨DEFAULT_FROM⟩ ⟨DEFAULT_TO⟩
    (by decide) (by decide)

/-- C4 counterexample: the token "Known:0" parses successfully with count 0
(\x7bsee `split_antenna_arg`: "0" is a valid `usize`\x7d) and the endpoint
builder passes the zero-count contribution into the endpoint; no
InvalidCount (or any other) error is produced anywhere. -/
theorem zero_count_not_rejected :
    split_antenna_arg "Known:0".toList = Except.ok (0, "Known".toList) ∧
      buildEndpoint smallCatalog ["Known:0".toList] DEFAULT_FROM =
        Except.ok [(knownAntenna, 0)] := by
  constructor <;> decide

/-- C4 amended: a zero count is never rejected: whenever a token splits to
count 0 with a name the catalog resolves, the builder returns the endpoint
containing that contribution with count 0 rather than an error. -/
theorem zero_count_passed_through {α : Type} (get : List Char → Option α)
    (s name : List Char) (a : α) (defaultKey : List Char)
    (hsplit : split_antenna_arg s = Except.ok (0, name))
    (hget : get name = some a) :
    buildEndpoint get [s] defaultKey = Except.ok [(a, 0)] := by
  simp [buildEndpoint, addLoop, hsplit, hget]

/-- C4 amended witness: the zero-count contribution "Known:0" flows into the
endpoint unchallenged. -/
theorem zero_count_passed_through_witness :
    buildEndpoint smallCatalog ["Known:0".toList] DEFAULT_TO =
      Except.ok [(knownAntenna, 0)] :=
  zero_count_passed_through smallCatalog ("Known:0".toList) ("Known".toList)
    knownAntenna DEFAULT_TO (by decide) (by decide)

/-- C8: when the catalog resolves the default key, the endpoint builder can
never hit the default-lookup failure (the `expect` panic of src/main.rs
lines 83-85 and 97-99), and every successful build — the only way range
computation is reached — yields a non-empty endpoint. -/
theorem default_resolvable_no_panic {α : Type} (get : List Char → Option α)
    (specs : List (List Char)) (defaultKey : List Char) (a : α)
    (hdk : get defaultKey = some a) :
    buildEndpoint get specs defaultKey ≠ Except.error BuildError.defaultMissing ∧
      ∀ l, buildEndpoint get specs defaultKey = Except.ok l → l ≠ [] := by
  unfold buildEndpoint
  cases hl : addLoop get specs [] with
  | error e =>
    refine ⟨fun hc => ?_, fun l hlok => ?_⟩
    · simp at hc
    · simp at hlok
  | ok l0 =>
    cases l0 with
    | nil =>
      refine ⟨by simp [hdk], fun l hlok => ?_⟩
      simp [hdk] at hlok
      rw [← hlok]
      simp
    | cons p t =>
      refine ⟨by simp, fun l hlok => ?_⟩
      simp at hlok
      rw [← hlok]
      simp

/-- C8 witness: with the defaults catalog and a lone unknown token, the
build neither panics nor produces an empty endpoint. -/
theorem default_resolvable_no_panic_witness :
    buildEndpoint defaultsCatalog ["Nope".toList] DEFAULT_FROM ≠
        Except.error BuildError.defaultMissing ∧
      ∀ l, buildEndpoint defaultsCatalog ["Nope".toList] DEFAULT_FROM =
          Except.ok l → l ≠ [] :=
  default_resolvable_no_panic defaultsCatalog ["Nope".toList] DEFAULT_FROM
    ⟨DEFAULT_FROM⟩ (by decide)

/-- When every token parses but names an unknown device, the loop returns
its accumulator unchanged. -/
theorem addLoop_all_unknown {α : Type} (get : List Char → Option α) :
    ∀ specs : List (List Char),
      (∀ s ∈ specs, ∃ c n, split_antenna_arg s = Except.ok (c, n) ∧ get n = none) →
      ∀ acc, addLoop get specs acc = Except.ok acc := by
  intro specs
  induction specs with
  | nil => intro _ acc; rfl
  | cons s rest ih =>
    intro hall acc
    obtain ⟨c, n, hs, hn⟩ := hall s (List.mem_cons_self s rest)
    have hstep : addLoop get (s :: rest) acc = addLoop get rest acc := by
      simp only [addLoop, hs, hn]
    rw [hstep]
    exact ih (fun t ht => hall t (List.mem_cons_of_mem s ht)) acc

/-- C9: the default-pair fallback fires whenever the endpoint is still empty
after all specifiers are processed, not only for an empty specifier
sequence: if every supplied token parses but names an unknown device, the
endpoint is silently replaced by the resolved default device with count 1. -/
theorem all_unknown_falls_back_to_default {α : Type} (get : List Char → Option α)
    (specs : List (List Char)) (defaultKey : List Char) (a : α)
    (hall : ∀ s ∈ specs, ∃ c n, split_antenna_arg s = Except.ok (c, n) ∧ get n = none)
    (hdk : get defaultKey = some a) :
    buildEndpoint get specs defaultKey = Except.ok [(a, 1)] := by
  unfold buildEndpoint
  rw [addLoop_all_unknown get specs hall []]
  simp [hdk]

/-- C9 witness: the non-empty token list ["Nope"] — all unknown — falls back
to the default pair with count 1. -/
theorem all_unknown_falls_back_witness :
    buildEndpoint defaultsCatalog ["Nope".toList] DEFAULT_TO =
      Except.ok [((⟨DEFAULT_TO⟩ : Antenna), 1)] :=
  all_unknown_falls_back_to_default defaultsCatalog ["Nope".toList] DEFAULT_TO
    ⟨DEFAULT_TO⟩
    (by
      intro s hs
      rw [List.mem_singleton] at hs
      subst hs
      exact ⟨1, "Nope".toList, by decide, by decide⟩)
    (by decide)

/-- Modelled from the spec: one individual contribution of an endpoint's
multiset (a device replicated once), carrying its power rating and its
combinability exponent. The core crate that computes this
(`ksp_commnet_calculator_core::endpoint`) is not among the available
repository files. -/
structure Contribution where
  power : ℝ
  exponent : ℝ

/-- Modelled from the spec: the maximum individual power across all
contributions (0 for the empty multiset, matching "if the multiset is
empty, combined_power is 0" since powers are non-negative). -/
noncomputable def maxPower (l : List Contribution) : ℝ :=
  l.foldr (fun c m => max c.power m) 0

theorem maxPower_nil : maxPower [] = 0 := rfl

theorem maxPower_cons (c : Contribution) (l : List Contribution) :
    maxPower (c :: l) = max c.power (maxPower l) := rfl

/-- Modelled from the spec: drop one instance attaining the maximum power —
the anchor — from the contribution list (the sum "runs over every
contribution except one instance serving as the anchor"). -/
noncomputable def removeAnchor (pmax : ℝ) : List Contribution → List Contribution
  | [] => []
  | c :: rest => if c.power = pmax then rest else c :: removeAnchor pmax rest

open Classical in
/-- Modelled from the spec: `Endpoint.combined_power` — 0 for the empty
multiset and when all contributions have zero power; otherwise
`P_max * (1 + sum over the other contributions i of (P_i / P_max) ^ E_i)`
with real exponentiation, the sum running over every contribution except
one anchor instance attaining `P_max`. -/
noncomputable def combined_power (l : List Contribution) : ℝ :=
  if l = [] then 0
  else if maxPower l = 0 then 0
  else
    maxPower l *
      (1 + ((removeAnchor (maxPower l) l).map
        (fun c => (c.power / maxPower l) ^ c.exponent)).sum)

/-- Modelled from the spec: `RangeModel.max_distance`, the square root of
the product of the two combined powers. -/
noncomputable def max_distance (power_from power_to : ℝ) : ℝ :=
  Real.sqrt (power_from * power_to)

/-- A positive maximum power is attained by some contribution. -/
theorem maxPower_attained (l : List Contribution) (h : maxPower l ≠ 0) :
    ∃ c ∈ l, c.power = maxPower l := by
  induction l with
  | nil => exact absurd rfl h
  | cons c rest ih =>
    rcases le_or_lt c.power (maxPower rest) with hle | hlt
    · have hm : maxPower (c :: rest) = maxPower rest := by
        rw [maxPower_cons, max_eq_right hle]
      rw [hm] at h ⊢
      obtain ⟨d, hd, hdp⟩ := ih h
      exact ⟨d, List.mem_cons_of_mem c hd, hdp⟩
    · have hm : maxPower (c :: rest) = c.power := by
        rw [maxPower_cons, max_eq_left hlt.le]
      rw [hm]
      exact ⟨c, List.mem_cons_self c rest, rfl⟩

/-- Removing the anchor removes exactly one instance of power `p`: the list
is a permutation of the anchor consed onto the remainder. -/
theorem removeAnchor_perm (p : ℝ) (l : List Contribution)
    (h : ∃ c ∈ l, c.power = p) :
    ∃ anchor, anchor ∈ l ∧ anchor.power = p ∧
      l.Perm (anchor :: removeAnchor p l) := by
  induction l with
  | nil => simp at h
  | cons c rest ih =>
    by_cases hc : c.power = p
    · refine ⟨c, List.mem_cons_self c rest, hc, ?_⟩
      have hr : removeAnchor p (c :: rest) = rest := by
        simp only [removeAnchor, if_pos hc]
      rw [hr]
    · obtain ⟨d, hd, hdp⟩ := h
      rcases List.mem_cons.mp hd with rfl | hdrest
      · exact absurd hdp hc
      obtain ⟨anchor, ha, hap, hperm⟩ := ih ⟨d, hdrest, hdp⟩
      refine ⟨anchor, List.mem_cons_of_mem c ha, hap, ?_⟩
      have hr : removeAnchor p (c :: rest) = c :: removeAnchor p rest := by
        simp only [removeAnchor, if_neg hc]
      rw [hr]
      exact (hperm.cons c).trans (List.Perm.swap anchor c (removeAnchor p rest))

/-- Zero powers everywhere force a zero maximum. -/
theorem maxPower_of_all_zero (l : List Contribution)
    (h : ∀ c ∈ l, c.power = 0) : maxPower l = 0 := by
  induction l with
  | nil => rfl
  | cons c rest ih =>
    rw [maxPower_cons, h c (List.mem_cons_self c rest),
      ih (fun d hd => h d (List.mem_cons_of_mem c hd))]
    exact max_self 0

/-- C6: combined power follows the spec's combination rule: it is 0 for the
empty endpoint and when every contribution has zero power; for a non-empty
endpoint whose maximum individual power is positive it equals
`P_max * (1 + Σ_i (P_i / P_max) ^ E_i)` with the sum over all contributions
except one anchor instance attaining `P_max` (the endpoint is a permutation
of the anchor consed onto the summed remainder); and three devices of power
5 with exponent 1 combine to 15. -/
theorem combined_power_formula :
    combined_power [] = 0 ∧
      (∀ l : List Contribution, (∀ c ∈ l, c.power = 0) → combined_power l = 0) ∧
      (∀ l : List Contribution, l ≠ [] → 0 < maxPower l →
        ∃ anchor rest, l.Perm (anchor :: rest) ∧ anchor.power = maxPower l ∧
          combined_power l =
            maxPower l *
              (1 + (rest.map (fun c => (c.power / maxPower l) ^ c.exponent)).sum)) ∧
      combined_power [⟨5, 1⟩, ⟨5, 1⟩, ⟨5, 1⟩] = 15 := by
  refine ⟨by simp [combined_power], ?_, ?_, ?_⟩
  · intro l hzero
    have hm : maxPower l = 0 := maxPower_of_all_zero l hzero
    by_cases hl : l = []
    · simp [combined_power, hl]
    · simp [combined_power, hl, hm]
  · intro l hne hpos
    obtain ⟨anchor, hmem, hpow, hperm⟩ :=
      removeAnchor_perm (maxPower l) l (maxPower_attained l (ne_of_gt hpos))
    refine ⟨anchor, removeAnchor (maxPower l) l, hperm, hpow, ?_⟩
    simp [combined_power, hne, ne_of_gt hpos]
  · have h50 : max (5 : ℝ) 0 = 5 := max_eq_left (by norm_num)
    have hmax : maxPower [⟨5, 1⟩, ⟨5, 1⟩, ⟨5, 1⟩] = 5 := by
      rw [maxPower_cons, maxPower_cons, maxPower_cons, maxPower_nil]
      rw [h50, max_self, max_self]
    have hrem : removeAnchor 5 [⟨5, 1⟩, ⟨5, 1⟩, ⟨5, 1⟩] = [⟨5, 1⟩, ⟨5, 1⟩] := by
      simp only [removeAnchor, if_pos]
    have hne3 : ([⟨5, 1⟩, ⟨5, 1⟩, ⟨5, 1⟩] : List Contribution) ≠ [] := by simp
    unfold combined_power
    rw [hmax, if_neg hne3, if_neg (by norm_num : (5 : ℝ) ≠ 0), hrem]
    simp only [List.map_cons, List.map_nil, List.sum_cons, List.sum_nil,
      Real.rpow_one]
    norm_num

/-- C7: the maximum communication distance is the square root of the product
of the two powers; it is symmetric in its arguments, and it vanishes
whenever either power is 0. -/
theorem max_distance_spec (a b : ℝ) (ha : 0 ≤ a) (hb : 0 ≤ b) :
    max_distance a b = Real.sqrt (a * b) ∧
      max_distance a b = max_distance b a ∧
      max_distance a 0 = 0 ∧ max_distance 0 b = 0 := by
  refine ⟨rfl, ?_, ?_, ?_⟩
  · rw [max_distance, max_distance, mul_comm]
  · rw [max_distance, mul_zero, Real.sqrt_zero]
  · rw [max_distance, zero_mul, Real.sqrt_zero]

/-- C7 witness: at powers 1 and 4 the distance equals `sqrt (1 * 4)`, the
symmetry holds, and a zero power on either side gives distance 0. -/
theorem max_distance_spec_witness :
    max_distance 1 4 = Real.sqrt (1 * 4) ∧
      max_distance 1 4 = max_distance 4 1 ∧
      max_distance 1 0 = 0 ∧ max_distance 0 4 = 0 :=
  max_distance_spec 1 4 (by norm_num) (by norm_num)

example : splitOnColon "a:b".toList = ["a".toList, "b".toList] := by decide
example : splitOnColon "ab".toList = ["ab".toList] := by decide
example : split_antenna_arg "5:3".toList = Except.ok (3, "5".toList) := by decide
example : split_antenna_arg "Known:0".toList = Except.ok (0, "Known".toList) := by decide
example : split_antenna_arg "a:b:c".toList =
    Except.error (SpecError.invalidSpecifier (invalidSpecMsg "a:b:c".toList)) := by decide

end KspCommnet
